import Mathlib

/-!
Shallow embedding of the input-validation and safe-arithmetic layer of the
wager program (`programs/wager-program/src/validation.rs`).

Modelling conventions:
* `u64` values are `Nat`; every checked operation compares against the
  64-bit maximum `U64_MAX = 2^64 - 1` explicitly, exactly as Rust's
  `checked_add` / `checked_sub` / `checked_mul` / `checked_div` do.
* `u8` / `u16` values are `Nat`, with an explicit bound hypothesis where a
  theorem needs one.
* Rust `Result<T>` (anchor `Result`) becomes `Except WagerError T`.
* A Rust `&str` becomes its sequence of Unicode scalar values
  (`List Char`); `str::len` is the UTF-8 byte length, embedded by summing
  `char::len_utf8` over the characters.
* `char::is_alphanumeric` is a Unicode property of the Rust standard
  library, not of this repository; the embedding keeps it as an explicit
  function parameter, so theorems hold for every choice of that predicate
  (with hypotheses about specific character values where an individual
  claim needs them).
-/

namespace WagerProgram

/-- Modelled from the spec: the closed error taxonomy `WagerError` surfaced
to the caller (declared in the crate's `errors` module, which is outside the
provided sources; the variant names are exactly those used by
`validation.rs` and listed by the spec). -/
inductive WagerError where
  | InvalidSessionId
  | SessionIdTooLong
  | InvalidSessionIdFormat
  | InvalidTeamSelection
  | InvalidBetAmount
  | InvalidPlayer
  | TooManyRemainingAccounts
  | InvalidKill
  | ArithmeticOverflow
  | ArithmeticUnderflow
  | ArithmeticError
  | AlreadyProcessing
  deriving DecidableEq

/-- Anchor's `Result<T>` as used by `validation.rs`. -/
abbrev WResult (α : Type) := Except WagerError α

instance {ε α : Type} [DecidableEq ε] [DecidableEq α] :
    DecidableEq (Except ε α) := fun x y =>
  match x, y with
  | .ok a, .ok b =>
    if h : a = b then .isTrue (by rw [h]) else .isFalse (by simp [h])
  | .error a, .error b =>
    if h : a = b then .isTrue (by rw [h]) else .isFalse (by simp [h])
  | .ok _, .error _ => .isFalse (by simp)
  | .error _, .ok _ => .isFalse (by simp)

/-- The largest value of the 64-bit unsigned domain, `u64::MAX`. -/
def U64_MAX : Nat := 2 ^ 64 - 1

/-- Rust `u64::checked_mul`: `some (a * b)` when the true product fits in
the domain, `none` on overflow. -/
def checked_mul (a b : Nat) : Option Nat :=
  if a * b ≤ U64_MAX then some (a * b) else none

/-- Rust `u64::checked_add`: `some (a + b)` when the true sum fits in the
domain, `none` on overflow. -/
def checked_add (a b : Nat) : Option Nat :=
  if a + b ≤ U64_MAX then some (a + b) else none

/-- Rust `u64::checked_sub`: `some (a - b)` when `b ≤ a`, `none` on
underflow. -/
def checked_sub (a b : Nat) : Option Nat :=
  if b ≤ a then some (a - b) else none

/-- Rust `u64::checked_div`: `none` for a zero divisor, otherwise the
truncated quotient. -/
def checked_div (a b : Nat) : Option Nat :=
  if b = 0 then none else some (a / b)

/-- Rust `Option::ok_or`: converts `Option` into `Result`, mapping `none`
to the supplied error. -/
def ok_or {α : Type} (o : Option α) (e : WagerError) : WResult α :=
  match o with
  | some v => .ok v
  | none => .error e

/-- `safe_math::safe_multiply`:
`a.checked_mul(b).ok_or(error!(WagerError::ArithmeticOverflow))`. -/
def safe_multiply (a b : Nat) : WResult Nat :=
  ok_or (checked_mul a b) .ArithmeticOverflow

/-- `safe_math::safe_divide`:
`require!(b > 0, WagerError::ArithmeticError);`
then `a.checked_div(b).ok_or(error!(WagerError::ArithmeticOverflow))`. -/
def safe_divide (a b : Nat) : WResult Nat :=
  if b > 0 then ok_or (checked_div a b) .ArithmeticOverflow
  else .error .ArithmeticError

/-- `safe_math::safe_add`:
`a.checked_add(b).ok_or(error!(WagerError::ArithmeticOverflow))`. -/
def safe_add (a b : Nat) : WResult Nat :=
  ok_or (checked_add a b) .ArithmeticOverflow

/-- `safe_math::safe_subtract`:
`a.checked_sub(b).ok_or(error!(WagerError::ArithmeticUnderflow))`. -/
def safe_subtract (a b : Nat) : WResult Nat :=
  ok_or (checked_sub a b) .ArithmeticUnderflow

/-- `safe_math::safe_earnings_calculation`: widens `kills_and_spawns`
(`u16 as u64` — the identity on the underlying value), multiplies by
`session_bet` with `safe_multiply`, then divides by 10 with `safe_divide`,
propagating each failure via `?`. -/
def safe_earnings_calculation (kills_and_spawns : Nat) (session_bet : Nat) :
    WResult Nat :=
  let kills_spawns_u64 := kills_and_spawns
  (safe_multiply kills_spawns_u64 session_bet).bind
    (fun multiplied => safe_divide multiplied 10)

/-- Rust `char::len_utf8`: the number of bytes the character occupies in
UTF-8. -/
def len_utf8 (c : Char) : Nat :=
  if c.toNat < 0x80 then 1
  else if c.toNat < 0x800 then 2
  else if c.toNat < 0x10000 then 3
  else 4

/-- Rust `str::len`: the length of the string in UTF-8 bytes (the sum of
`len_utf8` over its characters). -/
def str_len (s : List Char) : Nat :=
  (s.map len_utf8).sum

/-- The character class accepted by `validate_session_id`'s closure:
`c.is_alphanumeric() || c == '-' || c == '_'`, with the standard library's
Unicode predicate `is_alphanumeric` as a parameter. -/
def allowed_char (is_alphanumeric : Char → Bool) (c : Char) : Bool :=
  is_alphanumeric c || c = '-' || c = '_'

/-- `validation::validate_session_id`: requires the string non-empty
(`InvalidSessionId`), then byte length at most 32 (`SessionIdTooLong`),
then every character alphanumeric, `-` or `_`
(`InvalidSessionIdFormat`). -/
def validate_session_id (is_alphanumeric : Char → Bool)
    (session_id : List Char) : WResult Unit :=
  if session_id.isEmpty then .error .InvalidSessionId
  else if ¬ str_len session_id ≤ 32 then .error .SessionIdTooLong
  else if ¬ session_id.all (allowed_char is_alphanumeric) then
    .error .InvalidSessionIdFormat
  else .ok ()

/-- `validation::validate_team_number`:
`require!(team == 0 || team == 1, WagerError::InvalidTeamSelection)`. -/
def validate_team_number (team : Nat) : WResult Unit :=
  if team = 0 ∨ team = 1 then .ok () else .error .InvalidTeamSelection

/-- `validation::validate_bet_amount`:
`require!(amount > 0, WagerError::InvalidBetAmount);`
`require!(amount <= 1_000_000_000_000, WagerError::InvalidBetAmount)`. -/
def validate_bet_amount (amount : Nat) : WResult Unit :=
  if amount > 0 then
    if amount ≤ 1000000000000 then .ok () else .error .InvalidBetAmount
  else .error .InvalidBetAmount

/-- A Solana `Pubkey`: 32 bytes of public-key data. Only equality and the
default (all-zero) sentinel matter to the validation layer. -/
structure Pubkey where
  bytes : List Nat
  deriving DecidableEq

/-- `Pubkey::default()`: the all-zero sentinel address. -/
def Pubkey.default : Pubkey :=
  ⟨List.replicate 32 0⟩

/-- `validation::validate_player_address`:
`require!(*player != Pubkey::default(), WagerError::InvalidPlayer)`. -/
def validate_player_address (player : Pubkey) : WResult Unit :=
  if player ≠ Pubkey.default then .ok () else .error .InvalidPlayer

/-- `validation::validate_remaining_accounts_count`:
`require!(count <= max_count, WagerError::TooManyRemainingAccounts)`. -/
def validate_remaining_accounts_count (count max_count : Nat) :
    WResult Unit :=
  if count ≤ max_count then .ok () else .error .TooManyRemainingAccounts

/-- `validation::validate_kill_data`: requires `killer != victim`
(`InvalidKill`), then `killer_team != victim_team` (`InvalidKill`), then
validates both addresses with `validate_player_address`, propagating its
failure via `?`. -/
def validate_kill_data (killer victim : Pubkey)
    (killer_team victim_team : Nat) : WResult Unit :=
  if ¬ killer ≠ victim then .error .InvalidKill
  else if ¬ killer_team ≠ victim_team then .error .InvalidKill
  else
    (validate_player_address killer).bind
      (fun _ => validate_player_address victim)

/-- Modelled from the spec: the session record (`GameSession`) is owned by
the calling instruction handler and is outside the provided sources; the
guard only reads and writes its `is_processing` boolean flag, so the
embedding carries exactly that field. -/
structure GameSession where
  is_processing : Bool
  deriving DecidableEq

/-- The `reentrancy_guard!` expansion:
`require!(!game_session.is_processing, WagerError::AlreadyProcessing);`
`game_session.is_processing = true;`. The returned pair is the session
record after the call together with the outcome: `require!` returns the
error before the assignment runs, so on failure the record is unchanged. -/
def reentrancy_guard (game_session : GameSession) :
    GameSession × WResult Unit :=
  if ¬ game_session.is_processing then
    ({ game_session with is_processing := true }, .ok ())
  else (game_session, .error .AlreadyProcessing)

/-- The `release_reentrancy_guard!` expansion:
`game_session.is_processing = false;` — an unconditional assignment that
cannot fail. -/
def release_reentrancy_guard (game_session : GameSession) : GameSession :=
  { game_session with is_processing := false }

/-! ## Theorems -/

/-- C5: `safe_divide(a, b)` fails with `ArithmeticError` exactly when
`b = 0` (the zero check runs before the division and is never reported as
`ArithmeticOverflow`), and for every `b > 0` it returns the truncated
quotient `⌊a / b⌋`; in particular `safe_divide 10 0` fails with
`ArithmeticError` and `safe_divide 10 3 = 3`. -/
theorem safe_divide_spec :
    safe_divide 10 0 = .error .ArithmeticError ∧
    safe_divide 10 3 = .ok 3 ∧
    ∀ a b : Nat,
      (b = 0 → safe_divide a b = .error .ArithmeticError) ∧
      (0 < b → safe_divide a b = .ok (a / b)) := by
  refine ⟨rfl, rfl, fun a b => ⟨fun hb => ?_, fun hb => ?_⟩⟩
  · subst hb
    rfl
  · have hb0 : b ≠ 0 := Nat.pos_iff_ne_zero.mp hb
    simp [safe_divide, checked_div, ok_or, hb, hb0]

/-- Witness for C5: instantiates `safe_divide_spec` at `(10, 0)` and
`(10, 3)`. -/
theorem safe_divide_spec_witness :
    safe_divide 10 0 = .error .ArithmeticError ∧ safe_divide 10 3 = .ok 3 :=
  ⟨(safe_divide_spec.2.2 10 0).1 rfl,
    by simpa using (safe_divide_spec.2.2 10 3).2 (by decide)⟩

/-- C6: `safe_add(a, b)` returns the exact mathematical sum when it is at
most `u64::MAX` and fails with `ArithmeticOverflow` when the true sum
exceeds it; in particular `safe_add u64::MAX 1` fails with
`ArithmeticOverflow` and `safe_add 2 3 = 5`. -/
theorem safe_add_spec :
    safe_add U64_MAX 1 = .error .ArithmeticOverflow ∧
    safe_add 2 3 = .ok 5 ∧
    ∀ a b : Nat,
      (a + b ≤ U64_MAX → safe_add a b = .ok (a + b)) ∧
      (U64_MAX < a + b → safe_add a b = .error .ArithmeticOverflow) := by
  refine ⟨by decide, rfl, fun a b => ⟨fun h => ?_, fun h => ?_⟩⟩
  · simp [safe_add, checked_add, ok_or, h]
  · simp [safe_add, checked_add, ok_or, Nat.not_le.mpr h]

/-- Witness for C6: instantiates `safe_add_spec` at `(2, 3)` and at
`(u64::MAX, 1)`. -/
theorem safe_add_spec_witness :
    safe_add 2 3 = .ok (2 + 3) ∧
    safe_add U64_MAX 1 = .error .ArithmeticOverflow :=
  ⟨(safe_add_spec.2.2 2 3).1 (by decide),
    (safe_add_spec.2.2 U64_MAX 1).2 (by decide)⟩

/-- C7: `safe_subtract(a, b)` fails with `ArithmeticUnderflow` exactly when
`b > a` and otherwise returns the exact difference `a - b`; in particular
`safe_subtract 3 5` fails with `ArithmeticUnderflow` and
`safe_subtract 5 3 = 2`. -/
theorem safe_subtract_spec :
    safe_subtract 3 5 = .error .ArithmeticUnderflow ∧
    safe_subtract 5 3 = .ok 2 ∧
    ∀ a b : Nat,
      (b ≤ a → safe_subtract a b = .ok (a - b)) ∧
      (a < b → safe_subtract a b = .error .ArithmeticUnderflow) := by
  refine ⟨rfl, rfl, fun a b => ⟨fun h => ?_, fun h => ?_⟩⟩
  · simp [safe_subtract, checked_sub, ok_or, h]
  · simp [safe_subtract, checked_sub, ok_or, Nat.not_le.mpr h]

/-- Witness for C7: instantiates `safe_subtract_spec` at `(5, 3)` and
`(3, 5)`. -/
theorem safe_subtract_spec_witness :
    safe_subtract 5 3 = .ok (5 - 3) ∧
    safe_subtract 3 5 = .error .ArithmeticUnderflow :=
  ⟨(safe_subtract_spec.2.2 5 3).1 (by decide),
    (safe_subtract_spec.2.2 3 5).2 (by decide)⟩

/-- C1: `safe_earnings_calculation` widens `kills_and_spawns` to the 64-bit
domain, computes `safe_multiply(kills_and_spawns, session_bet)` and then
`safe_divide` of the product by 10, propagating any failure of those
primitives unchanged (the `bind` composition below is exactly that
propagation); `safe_earnings_calculation 10 100 = 100`,
`safe_earnings_calculation 0 100 = 0`, and whenever the true product fits
in the 64-bit domain the result is `⌊kills_and_spawns * session_bet / 10⌋`. -/
theorem safe_earnings_calculation_spec :
    safe_earnings_calculation 10 100 = .ok 100 ∧
    safe_earnings_calculation 0 100 = .ok 0 ∧
    ∀ k b : Nat, k < 2 ^ 16 →
      (safe_earnings_calculation k b =
        (safe_multiply k b).bind (fun m => safe_divide m 10)) ∧
      (k * b ≤ U64_MAX →
        safe_earnings_calculation k b = .ok (k * b / 10)) := by
  refine ⟨rfl, rfl, fun k b _ => ⟨rfl, fun h => ?_⟩⟩
  simp [safe_earnings_calculation, safe_multiply, safe_divide, checked_mul,
    checked_div, ok_or, Except.bind, h]

/-- Witness for C1: instantiates `safe_earnings_calculation_spec` at
`(10, 100)`. -/
theorem safe_earnings_calculation_spec_witness :
    safe_earnings_calculation 10 100 = .ok (10 * 100 / 10) :=
  (safe_earnings_calculation_spec.2.2 10 100 (by decide)).2 (by decide)

/-- C10: `safe_earnings_calculation` either returns a value or fails with
`ArithmeticOverflow`, and an `ArithmeticOverflow` failure can only come
from the multiplication overflowing the 64-bit domain; because the divisor
is the constant 10, the zero-divisor branch (`ArithmeticError`) and the
division's overflow branch are unreachable, and `ArithmeticUnderflow` is
never produced. -/
theorem safe_earnings_calculation_total :
    ∀ k b : Nat,
      (safe_earnings_calculation k b = .error .ArithmeticOverflow →
        U64_MAX < k * b) ∧
      (safe_earnings_calculation k b = .error .ArithmeticOverflow ∨
        ∃ v, safe_earnings_calculation k b = .ok v) := by
  intro k b
  by_cases h : k * b ≤ U64_MAX
  · refine ⟨fun hc => absurd hc ?_, .inr ⟨k * b / 10, ?_⟩⟩ <;>
      simp [safe_earnings_calculation, safe_multiply, safe_divide,
        checked_mul, checked_div, ok_or, Except.bind, h]
  · refine ⟨fun _ => Nat.not_le.mp h, .inl ?_⟩
    simp [safe_earnings_calculation, safe_multiply, checked_mul, ok_or,
      Except.bind, h]

/-- Witness for C10: instantiates `safe_earnings_calculation_total` at
`(2, 2 ^ 63)`, where the product overflows, discharging the implication's
hypothesis there. -/
theorem safe_earnings_calculation_total_witness :
    U64_MAX < 2 * 2 ^ 63 :=
  (safe_earnings_calculation_total 2 (2 ^ 63)).1 (by decide)

/-- C8: `validate_bet_amount a` succeeds if and only if
`1 ≤ a ≤ 1,000,000,000,000`, and both `a = 0` and
`a = 1,000,000,000,001` fail with the same failure kind,
`InvalidBetAmount`. -/
theorem validate_bet_amount_spec :
    validate_bet_amount 0 = .error .InvalidBetAmount ∧
    validate_bet_amount 1000000000001 = .error .InvalidBetAmount ∧
    ∀ a : Nat,
      (validate_bet_amount a = .ok () ↔ 1 ≤ a ∧ a ≤ 1000000000000) := by
  refine ⟨rfl, by decide, fun a => ?_⟩
  by_cases h0 : 0 < a
  · by_cases h1 : a ≤ 1000000000000
    · simp [validate_bet_amount, h0, h1]
      omega
    · simp [validate_bet_amount, h0, h1]
  · simp [validate_bet_amount, h0]
    omega

/-- Witness for C8: instantiates `validate_bet_amount_spec` at `a = 5`. -/
theorem validate_bet_amount_spec_witness :
    validate_bet_amount 5 = .ok () :=
  (validate_bet_amount_spec.2.2 5).mpr (by decide)

/-- C2: acquiring the reentrancy guard on a session with
`is_processing = false` succeeds and sets the flag to `true`; acquiring on
a session with `is_processing = true` fails with `AlreadyProcessing` and
leaves the session unchanged (the flag still `true`); and releasing always
sets the flag to `false` and cannot fail (its type returns no error), so
releasing an already-idle session is a safe no-op re-assignment. -/
theorem reentrancy_guard_spec :
    ∀ s : GameSession,
      (s.is_processing = false →
        reentrancy_guard s = ({ s with is_processing := true }, .ok ())) ∧
      (s.is_processing = true →
        reentrancy_guard s = (s, .error .AlreadyProcessing)) ∧
      (release_reentrancy_guard s).is_processing = false := by
  intro s
  refine ⟨fun h => ?_, fun h => ?_, rfl⟩ <;> simp [reentrancy_guard, h]

/-- Witness for C2: instantiates `reentrancy_guard_spec` on the idle and
the processing session. -/
theorem reentrancy_guard_spec_witness :
    reentrancy_guard ⟨false⟩ = (⟨true⟩, .ok ()) ∧
    reentrancy_guard ⟨true⟩ = (⟨true⟩, .error .AlreadyProcessing) :=
  ⟨(reentrancy_guard_spec ⟨false⟩).1 rfl,
    (reentrancy_guard_spec ⟨true⟩).2.1 rfl⟩

/-- C4: `validate_kill_data` fails with `InvalidKill` whenever
`killer = victim` (even when the teams differ) and whenever
`killer_team = victim_team` (even when the addresses differ); past those
checks it validates each address with `validate_player_address`,
propagating that sub-check's exact `InvalidPlayer` failure; and it
succeeds exactly when `killer ≠ victim`, `killer_team ≠ victim_team`, and
both addresses differ from the default sentinel. -/
theorem validate_kill_data_spec :
    ∀ (killer victim : Pubkey) (killer_team victim_team : Nat),
      (killer = victim →
        validate_kill_data killer victim killer_team victim_team =
          .error .InvalidKill) ∧
      (killer_team = victim_team →
        validate_kill_data killer victim killer_team victim_team =
          .error .InvalidKill) ∧
      (killer ≠ victim → killer_team ≠ victim_team →
        killer = Pubkey.default →
        validate_kill_data killer victim killer_team victim_team =
          .error .InvalidPlayer) ∧
      (killer ≠ victim → killer_team ≠ victim_team →
        killer ≠ Pubkey.default → victim = Pubkey.default →
        validate_kill_data killer victim killer_team victim_team =
          .error .InvalidPlayer) ∧
      (validate_kill_data killer victim killer_team victim_team = .ok () ↔
        killer ≠ victim ∧ killer_team ≠ victim_team ∧
          killer ≠ Pubkey.default ∧ victim ≠ Pubkey.default) := by
  intro killer victim killer_team victim_team
  refine ⟨fun h => by simp [validate_kill_data, h],
    fun h => by simp [validate_kill_data, h],
    fun h1 h2 h3 => by
      have hdv : Pubkey.default ≠ victim := h3 ▸ h1
      simp [validate_kill_data, validate_player_address, Except.bind,
        h1, h2, h3, hdv],
    fun h1 h2 h3 h4 => by
      simp [validate_kill_data, validate_player_address, Except.bind,
        h1, h2, h3, h4],
    ?_⟩
  by_cases h1 : killer = victim
  · simp [validate_kill_data, h1]
  by_cases h2 : killer_team = victim_team
  · simp [validate_kill_data, h1, h2]
  by_cases h3 : killer = Pubkey.default
  · have hdv : Pubkey.default ≠ victim := h3 ▸ h1
    simp [validate_kill_data, validate_player_address, Except.bind,
      h1, h2, h3, hdv]
  by_cases h4 : victim = Pubkey.default <;>
    simp [validate_kill_data, validate_player_address, Except.bind,
      h1, h2, h3, h4]

/-- Witness for C4: instantiates `validate_kill_data_spec` on an accepted
record (distinct non-default addresses, distinct teams). -/
theorem validate_kill_data_spec_witness :
    validate_kill_data ⟨List.replicate 32 1⟩ ⟨List.replicate 32 2⟩ 0 1 =
      .ok () :=
  (validate_kill_data_spec ⟨List.replicate 32 1⟩ ⟨List.replicate 32 2⟩
    0 1).2.2.2.2.mpr (by refine ⟨by decide, by decide, by decide, by decide⟩)

/-- Every character occupies at least one UTF-8 byte. -/
theorem one_le_len_utf8 (c : Char) : 1 ≤ len_utf8 c := by
  simp only [len_utf8]
  split
  · omega
  split
  · omega
  split <;> omega

/-- A non-empty string has a positive UTF-8 byte length. -/
theorem str_len_pos (c : Char) (rest : List Char) :
    1 ≤ str_len (c :: rest) := by
  have h := one_le_len_utf8 c
  simp only [str_len, List.map_cons, List.sum_cons]
  omega

/-- C3: `validate_session_id s` succeeds if and only if
`1 ≤ len(s) ≤ 32` (with `len` the code's `str::len`, i.e. UTF-8 bytes) and
every character of `s` is alphanumeric, `-`, or `_`; on failure it reports
the first violated check in the fixed order `InvalidSessionId` (empty),
then `SessionIdTooLong` (length over 32), then `InvalidSessionIdFormat`
(disallowed character). Stated for every choice of the standard library's
Unicode predicate `is_alphanumeric`. -/
theorem validate_session_id_spec :
    ∀ (is_alphanumeric : Char → Bool) (s : List Char),
      (validate_session_id is_alphanumeric s = .ok () ↔
        1 ≤ str_len s ∧ str_len s ≤ 32 ∧
          s.all (allowed_char is_alphanumeric) = true) ∧
      (s = [] →
        validate_session_id is_alphanumeric s = .error .InvalidSessionId) ∧
      (s ≠ [] → 32 < str_len s →
        validate_session_id is_alphanumeric s = .error .SessionIdTooLong) ∧
      (s ≠ [] → str_len s ≤ 32 →
        ¬ s.all (allowed_char is_alphanumeric) = true →
        validate_session_id is_alphanumeric s =
          .error .InvalidSessionIdFormat) := by
  intro f s
  cases s with
  | nil => simp [validate_session_id, str_len]
  | cons c rest =>
    have hpos := str_len_pos c rest
    refine ⟨?_, by simp, fun _ h32 => ?_, fun _ h32 hall => ?_⟩
    · by_cases h32 : str_len (c :: rest) ≤ 32
      · by_cases hall : (c :: rest).all (allowed_char f) = true
        · simp [validate_session_id, h32, hall, hpos]
        · simp [validate_session_id, h32, hall]
      · simp [validate_session_id, h32]
    · simp [validate_session_id, Nat.not_le.mpr h32]
    · simp [validate_session_id, h32, hall]

/-- Witness for C3: instantiates `validate_session_id_spec` with the ASCII
alphanumeric predicate on `"match-007"` (accepted) and `"bad id!"`
(rejected for its format). -/
theorem validate_session_id_spec_witness :
    validate_session_id Char.isAlphanum "match-007".toList = .ok () ∧
    validate_session_id Char.isAlphanum "bad id!".toList =
      .error .InvalidSessionIdFormat :=
  ⟨(validate_session_id_spec Char.isAlphanum "match-007".toList).1.mpr
      (by decide),
    (validate_session_id_spec Char.isAlphanum "bad id!".toList).2.2.2
      (by decide) (by decide) (by decide)⟩

/-- C9: `validate_session_id` measures the 32-unit length limit in UTF-8
bytes, not characters, while its character-class check accepts any Unicode
alphanumeric character: 17 copies of the two-byte letter `é` form a
17-character string, every character of which passes the class check
whenever the Unicode predicate accepts `é` (as Rust's does), yet it fails
with `SessionIdTooLong` (34 bytes); while the one-character string `é`,
non-ASCII and 2 bytes long, succeeds. -/
theorem validate_session_id_bytes_not_chars :
    ∀ is_alphanumeric : Char → Bool, is_alphanumeric 'é' = true →
      (List.replicate 17 'é').length ≤ 32 ∧
      (List.replicate 17 'é').all (allowed_char is_alphanumeric) = true ∧
      validate_session_id is_alphanumeric (List.replicate 17 'é') =
        .error .SessionIdTooLong ∧
      0x80 ≤ Char.toNat 'é' ∧ str_len ['é'] ≤ 32 ∧
      validate_session_id is_alphanumeric ['é'] = .ok () := by
  intro f h
  refine ⟨by decide, ?_, rfl, by decide, by decide, ?_⟩
  · simp only [List.all_eq_true]
    intro c hc
    rw [List.eq_of_mem_replicate hc]
    simp [allowed_char, h]
  · have hl : str_len ['é'] ≤ 32 := by decide
    simp [validate_session_id, hl, allowed_char, h]

/-- Witness for C9: instantiates `validate_session_id_bytes_not_chars`
with a concrete character predicate that accepts ASCII alphanumerics and
`é`. -/
theorem validate_session_id_bytes_not_chars_witness :
    validate_session_id (fun c => c.isAlphanum || c == 'é')
      (List.replicate 17 'é') = .error .SessionIdTooLong ∧
    validate_session_id (fun c => c.isAlphanum || c == 'é') ['é'] =
      .ok () :=
  ⟨(validate_session_id_bytes_not_chars
      (fun c => c.isAlphanum || c == 'é') (by decide)).2.2.1,
    (validate_session_id_bytes_not_chars
      (fun c => c.isAlphanum || c == 'é') (by decide)).2.2.2.2.2⟩

end WagerProgram
